import Mathlib

/-!
Verification development for the bond-analytics program `app3.py`
(Advanced Bond Analytics Tool).

The Python source is shallowly embedded: floating-point numbers are
modelled as rationals `ℚ` (real-valued formulas over `ℝ` where a square
root occurs), Python runtime exceptions as an explicit error type, and
`numpy` array operations (slice assignment with Python negative-index
semantics, `np.interp`, elementwise products and sums) as functions on
lists.  Each definition mirrors one piece of the source, cited by line
number in its doc comment.
-/

instance {ε α : Type} [DecidableEq ε] [DecidableEq α] : DecidableEq (Except ε α) := fun x y =>
  match x, y with
  | .ok a, .ok b =>
      if h : a = b then isTrue (by rw [h])
      else isFalse (fun hc => h (Except.ok.inj hc))
  | .error e, .error f =>
      if h : e = f then isTrue (by rw [h])
      else isFalse (fun hc => h (Except.error.inj hc))
  | .ok _, .error _ => isFalse (fun hc => Except.noConfusion hc)
  | .error _, .ok _ => isFalse (fun hc => Except.noConfusion hc)

/-- Untyped Python runtime exceptions that the embedded code can raise:
`IndexError` (indexing an empty/out-of-range `numpy` array position),
`KeyError` (missing `kwargs` entry), `ValueError` (`np.zeros` with a
negative length).  The source defines no typed error class of its own. -/
inductive PyError where
  | indexError
  | keyError
  | valueError
deriving DecidableEq, Repr

/-- Coupon frequency choices offered by the UI (app3.py line 229). -/
inductive Freq where
  | annual
  | semiAnnual
  | quarterly
  | monthly
deriving DecidableEq, Repr

/-- `freq_map = {"Annual": 1, "Semi-Annual": 2, "Quarterly": 4, "Monthly": 12}`
(app3.py line 103). -/
def Freq.n : Freq → ℕ
  | .annual => 1
  | .semiAnnual => 2
  | .quarterly => 4
  | .monthly => 12

/-- Bond structural types offered by the UI (app3.py lines 195-202). -/
inductive BondType where
  | vanillaFixedRate
  | callableBond
  | putableBond
  | stepUpCoupon
  | stepDownCoupon
  | fixedToFloating
  | zeroCoupon
  | inflationLinked
deriving DecidableEq, Repr

/-- Arguments of `calculate_bond_metrics` (app3.py line 83).  `coupon_rate`
and `ytm` are annual percentages.  The `kwargs` entries `call_date` and
`call_price` of a Callable Bond are optional fields; only the year of the
call date matters to the code (line 126), so it is carried as an integer. -/
structure BondArgs where
  face_value : ℚ
  coupon_rate : ℚ
  ytm : ℚ
  years_to_maturity : ℚ
  coupon_freq : Freq
  bond_type : BondType
  call_date_year : Option ℤ := none
  call_price : Option ℚ := none
deriving DecidableEq, Repr

/-- Python `int()` truncation toward zero, applied to
`years_to_maturity * n` (app3.py line 105). -/
def ratTrunc (q : ℚ) : ℤ :=
  if q < 0 then ⌈q⌉ else ⌊q⌋

/-- Resolve a Python slice bound `k` against an array of length `p`:
nonnegative bounds clamp to `p`, negative bounds count from the end and
clamp to `0`.  Used for `cash_flows[:k]` and `cash_flows[k:]`. -/
def pyBound (k : ℤ) (p : ℕ) : ℕ :=
  if 0 ≤ k then min k.toNat p else ((p : ℤ) + k).toNat

/-- `periodic_ytm = ytm / 100 / n` (app3.py lines 100, 109). -/
def periodicYtm (a : BondArgs) : ℚ :=
  a.ytm / 100 / a.coupon_freq.n

/-- The periodic coupon amount `face_value * (coupon_rate/100 / n)`
(app3.py lines 99, 108, 117). -/
def couponAmt (a : BondArgs) : ℚ :=
  a.face_value * (a.coupon_rate / 100 / a.coupon_freq.n)

/-- Vanilla fixed-rate cash flows (app3.py lines 117-119): every period
pays the coupon and the last additionally repays the face value.  On an
empty array `cash_flows[-1] = ...` raises `IndexError`. -/
def vanillaFlows (p : ℕ) (c face : ℚ) : Except PyError (List ℚ) :=
  if p = 0 then .error .indexError
  else .ok (List.replicate (p - 1) c ++ [face + c])

/-- Callable-bond cash flows when `call_period < periods` (app3.py lines
129-133), with Python semantics for a possibly negative `call_period k`:
first `cash_flows[:k] = coupon`, then `cash_flows[k] = call`, then
`cash_flows[k+1:] = 0`; the later writes win. -/
def callableFlows (p : ℕ) (k : ℤ) (c call : ℚ) : List ℚ :=
  List.ofFn fun i : Fin p =>
    if (pyBound (k + 1) p : ℤ) ≤ (i : ℕ) then 0
    else if (i : ℕ) = (if 0 ≤ k then k else (p : ℤ) + k) then call
    else if ((i : ℕ) : ℤ) < (pyBound k p : ℤ) then c
    else 0

/-- Cash-flow construction of `calculate_bond_metrics` (app3.py lines
102-140), relative to the current year `todayYear` (`datetime.today()`
at line 126).  `np.zeros(periods)` raises `ValueError` for negative
`periods`; bond types with no branch in the source keep the all-zero
array. -/
def buildCashFlows (todayYear : ℤ) (a : BondArgs) : Except PyError (List ℚ) :=
  let n := a.coupon_freq.n
  let periods := ratTrunc (a.years_to_maturity * n)
  if periods < 0 then .error .valueError
  else
    let p := periods.toNat
    match a.bond_type with
    | .vanillaFixedRate => vanillaFlows p (couponAmt a) a.face_value
    | .zeroCoupon =>
        if p = 0 then .error .indexError
        else .ok (List.replicate (p - 1) 0 ++ [a.face_value])
    | .callableBond =>
        match a.call_date_year with
        | none => .error .keyError
        | some cy =>
            let k : ℤ := (cy - todayYear) * n
            if k < periods then
              match a.call_price with
              | none => .error .keyError
              | some cp =>
                  if (p : ℤ) + k < 0 ∧ k < 0 then .error .indexError
                  else .ok (callableFlows p k (couponAmt a) (cp / 100 * a.face_value))
            else vanillaFlows p (couponAmt a) a.face_value
    | _ => .ok (List.replicate p 0)

/-- The result dictionary of `calculate_bond_metrics` (app3.py lines
157-165). -/
structure BondMetrics where
  price : ℚ
  macDuration : ℚ
  modDuration : ℚ
  convexity : ℚ
  ytm : ℚ
  cashFlows : List ℚ
  discountFactors : List ℚ
deriving DecidableEq, Repr

/-- Pricing and sensitivity block of `calculate_bond_metrics` (app3.py
lines 142-165): discount factors `(1+y)^-(i+1)` for the 0-based period
`i`, price as the discounted sum, Macaulay duration, modified duration
`mac/(1+y)` and convexity, with `y` the periodic yield and `d` the
annual decimal yield returned under "Yield to Maturity". -/
def computeMetrics (cfs : List ℚ) (y : ℚ) (n : ℕ) (d : ℚ) : BondMetrics :=
  let p := cfs.length
  let df : ℕ → ℚ := fun i => ((1 + y) ^ (i + 1))⁻¹
  let pv : ℕ → ℚ := fun i => cfs.getD i 0 * df i
  let time : ℕ → ℚ := fun i => ((i : ℚ) + 1) / n
  let price := ∑ i in Finset.range p, pv i
  let mac := (∑ i in Finset.range p, time i * pv i) / price
  { price := price
    macDuration := mac
    modDuration := mac / (1 + y)
    convexity :=
      (∑ i in Finset.range p, time i * (time i + 1 / (n : ℚ)) * pv i / ((1 + y) ^ 2)) / price
    ytm := d
    cashFlows := cfs
    discountFactors := List.ofFn fun i : Fin p => df i }

/-- `calculate_bond_metrics` (app3.py lines 83-165): build the cash-flow
schedule, then price it at the periodic yield `ytm/100/n`. -/
def calculate_bond_metrics (todayYear : ℤ) (a : BondArgs) :
    Except PyError BondMetrics :=
  (buildCashFlows todayYear a).map fun cfs =>
    computeMetrics cfs (periodicYtm a) a.coupon_freq.n (a.ytm / 100)

/-- `np.interp(x, xs, ys)` for increasing knots `xs`: clamp to the first
or last ordinate outside the observed range, piecewise-linear inside
(app3.py lines 810-811, 850-851). -/
def npInterp (x : ℚ) : List ℚ → List ℚ → ℚ
  | x₁ :: xs, y₁ :: ys =>
    match xs, ys with
    | x₂ :: _, y₂ :: _ =>
        if x ≤ x₁ then y₁
        else if x ≤ x₂ then y₁ + (y₂ - y₁) * (x - x₁) / (x₂ - x₁)
        else npInterp x xs ys
    | _, _ => y₁
  | _, _ => 0

/-- `slope = (y10 - y2)*100` with `y10 = np.interp(10, ...)` and
`y2 = np.interp(2, ...)` on decimal yields (app3.py lines 810-812).
Note the factor is `100`, while the neighbouring curvature metric at
line 821 converts a decimal yield difference to basis points with
`*10000`. -/
def curveSlope (maturities yields : List ℚ) : ℚ :=
  (npInterp 10 maturities yields - npInterp 2 maturities yields) * 100

/-- Curve-shape labels displayed at app3.py lines 826-831. -/
inductive CurveShape where
  | inverted
  | flat
  | normal
deriving DecidableEq, Repr

/-- Shape classification of the computed `slope` value (app3.py lines
826-831): `slope < 0` inverted, `slope < 50` flat, otherwise normal. -/
def classifyCurve (slope : ℚ) : CurveShape :=
  if slope < 0 then .inverted
  else if slope < 50 then .flat
  else .normal

/-- VaR confidence levels offered by the selectbox (app3.py line 1039). -/
inductive Confidence where
  | c90
  | c95
  | c99
  | c995
  | c999
deriving DecidableEq, Repr

/-- `z_score = {90: 1.282, 95: 1.645, 99: 2.326, 99.5: 2.576,
99.9: 3.090}[confidence_level]` (app3.py line 1075). -/
def zScore : Confidence → ℚ
  | .c90 => 1.282
  | .c95 => 1.645
  | .c99 => 2.326
  | .c995 => 2.576
  | .c999 => 3.090

/-- `dollar_duration = price * mod_duration` (app3.py line 1068). -/
def dollarDuration (price modDur : ℚ) : ℚ :=
  price * modDur

/-- `price_volatility = dollar_duration * yield_vol / 10000`
(app3.py line 1076), with the daily yield volatility in bps/day. -/
def priceVolatility (dd vol : ℚ) : ℚ :=
  dd * vol / 10000

/-- `var = z_score * price_volatility * np.sqrt(horizon_days)`
(app3.py line 1077); real-valued because of the square root. -/
noncomputable def valueAtRisk (c : Confidence) (horizonDays : ℕ) (vol dd : ℚ) : ℝ :=
  (zScore c : ℝ) * (priceVolatility dd vol : ℝ) * Real.sqrt horizonDays

/-- Coupon frequencies of the comparison tool (app3.py line 1452). -/
inductive BasicFreq where
  | annual
  | semiAnnual
  | quarterly
deriving DecidableEq, Repr

/-- `freq_map = {"Annual": 1, "Semi-Annual": 2, "Quarterly": 4}`
(app3.py lines 1452-1453). -/
def BasicFreq.n : BasicFreq → ℕ
  | .annual => 1
  | .semiAnnual => 2
  | .quarterly => 4

/-- One bond record of the comparison tool, as consumed by
`calculate_basic_metrics` (app3.py lines 1403-1418): the date pair is
carried as the day difference `maturity_date - current_date`. -/
structure BasicBond where
  purchase_price : ℚ
  face_value : ℚ
  coupon_rate : ℚ
  coupon_freq : BasicFreq
  days_to_maturity : ℤ
deriving DecidableEq, Repr

/-- The `try` block of `calculate_basic_metrics` (app3.py lines
1447-1462): `none` signals a Python exception inside the block
(`ZeroDivisionError` from `/ years_to_maturity`, `/ purchase_price`
or `/ (1 + ytm)`). -/
def basicMetricsTry (b : BasicBond) : Option (ℚ × ℚ) :=
  let years := (b.days_to_maturity : ℚ) / (1461 / 4)
  if years = 0 ∨ b.purchase_price = 0 then none
  else
    let ppy : ℚ := b.coupon_freq.n
    let coupon_payment := b.face_value * (b.coupon_rate / 100) / ppy
    let total_coupons := coupon_payment * years * ppy
    let total_gain := b.face_value - b.purchase_price
    let ytm := (total_coupons + total_gain) / years / b.purchase_price
    if 1 + ytm = 0 then none
    else some (ytm, years / (1 + ytm))

/-- `calculate_basic_metrics` for one bond (app3.py lines 1445-1465):
the `except` clause at lines 1463-1465 silently replaces any failure by
`ytm = 0` and `duration = 0`. -/
def calculate_basic_metrics (b : BasicBond) : ℚ × ℚ :=
  (basicMetricsTry b).getD (0, 0)

/-! ### Concrete inputs used as witnesses and counterexamples -/

/-- Vanilla fixed-rate bond: face 100, coupon 5%, ytm 6%, 2 years, annual. -/
def bondVanilla2y : BondArgs :=
  { face_value := 100, coupon_rate := 5, ytm := 6, years_to_maturity := 2,
    coupon_freq := .annual, bond_type := .vanillaFixedRate }

/-- The metrics record produced for `bondVanilla2y` (schedule `[5, 105]`,
periodic yield `6/100`). -/
def vanillaMetrics2y : BondMetrics :=
  computeMetrics [5, 105] (periodicYtm bondVanilla2y) bondVanilla2y.coupon_freq.n
    (bondVanilla2y.ytm / 100)

/-- Zero-coupon bond, face 100, ytm 10%, 1 year to maturity, paying
semi-annually (`n = 2`, so 2 periods). -/
def bondZcSemi : BondArgs :=
  { face_value := 100, coupon_rate := 0, ytm := 10, years_to_maturity := 1,
    coupon_freq := .semiAnnual, bond_type := .zeroCoupon }

/-- Zero-coupon bond, face 100, ytm 6%, 3 years, annual. -/
def bondZcAnnual3y : BondArgs :=
  { face_value := 100, coupon_rate := 0, ytm := 6, years_to_maturity := 3,
    coupon_freq := .annual, bond_type := .zeroCoupon }

/-- The metrics record produced for `bondZcAnnual3y`. -/
def zcMetrics3y : BondMetrics :=
  computeMetrics [0, 0, 100] (periodicYtm bondZcAnnual3y) bondZcAnnual3y.coupon_freq.n
    (bondZcAnnual3y.ytm / 100)

/-- Putable bond with the same numeric terms as `bondVan1000`. -/
def bondPut2y : BondArgs :=
  { face_value := 1000, coupon_rate := 5, ytm := 6, years_to_maturity := 2,
    coupon_freq := .annual, bond_type := .putableBond }

/-- Vanilla bond with the same numeric terms as `bondPut2y`. -/
def bondVan1000 : BondArgs :=
  { face_value := 1000, coupon_rate := 5, ytm := 6, years_to_maturity := 2,
    coupon_freq := .annual, bond_type := .vanillaFixedRate }

/-- Callable bond whose call year 2025 lies before the current year 2026:
the computed call period index is `-1`. -/
def bondCallPast : BondArgs :=
  { face_value := 1000, coupon_rate := 5, ytm := 6, years_to_maturity := 2,
    coupon_freq := .annual, bond_type := .callableBond,
    call_date_year := some 2025, call_price := some 102 }

/-- Callable bond: 10 years annual, call year 2031 seen from 2026
(call period index 5), call price 102. -/
def bondCall10y : BondArgs :=
  { face_value := 1000, coupon_rate := 5, ytm := 6, years_to_maturity := 10,
    coupon_freq := .annual, bond_type := .callableBond,
    call_date_year := some 2031, call_price := some 102 }

/-- Vanilla bond with half a year to maturity at annual frequency:
`periods = int(0.5 * 1) = 0`, an empty schedule. -/
def bondHalfYear : BondArgs :=
  { face_value := 1000, coupon_rate := 5, ytm := 6, years_to_maturity := 1 / 2,
    coupon_freq := .annual, bond_type := .vanillaFixedRate }

/-- Callable bond whose `kwargs` carry no `call_date`. -/
def bondCallNoDate : BondArgs :=
  { face_value := 1000, coupon_rate := 5, ytm := 6, years_to_maturity := 2,
    coupon_freq := .annual, bond_type := .callableBond }

/-- Vanilla bond with negative years to maturity: `np.zeros(-1)` raises
`ValueError`. -/
def bondNegYears : BondArgs :=
  { face_value := 1000, coupon_rate := 5, ytm := 6, years_to_maturity := -1,
    coupon_freq := .annual, bond_type := .vanillaFixedRate }

/-- Comparison-tool bond whose maturity date equals the current date
(`days_to_maturity = 0`), purchased at par. -/
def basicBondZeroYears : BasicBond :=
  { purchase_price := 100, face_value := 100, coupon_rate := 5,
    coupon_freq := .annual, days_to_maturity := 0 }

/-! ### Helper lemmas -/

lemma computeMetrics_price (cfs : List ℚ) (y : ℚ) (n : ℕ) (d : ℚ) :
    (computeMetrics cfs y n d).price
      = ∑ i in Finset.range cfs.length, cfs.getD i 0 * ((1 + y) ^ (i + 1))⁻¹ :=
  rfl

lemma computeMetrics_cashFlows (cfs : List ℚ) (y : ℚ) (n : ℕ) (d : ℚ) :
    (computeMetrics cfs y n d).cashFlows = cfs :=
  rfl

lemma computeMetrics_ytm (cfs : List ℚ) (y : ℚ) (n : ℕ) (d : ℚ) :
    (computeMetrics cfs y n d).ytm = d :=
  rfl

lemma computeMetrics_modDuration (cfs : List ℚ) (y : ℚ) (n : ℕ) (d : ℚ) :
    (computeMetrics cfs y n d).modDuration = (computeMetrics cfs y n d).macDuration / (1 + y) :=
  rfl

lemma computeMetrics_macDuration (cfs : List ℚ) (y : ℚ) (n : ℕ) (d : ℚ) :
    (computeMetrics cfs y n d).macDuration
      = (∑ i in Finset.range cfs.length,
          (((i : ℚ) + 1) / n) * (cfs.getD i 0 * ((1 + y) ^ (i + 1))⁻¹))
        / (computeMetrics cfs y n d).price :=
  rfl

lemma computeMetrics_discountFactors (cfs : List ℚ) (y : ℚ) (n : ℕ) (d : ℚ) :
    (computeMetrics cfs y n d).discountFactors
      = List.ofFn (fun i : Fin cfs.length => ((1 + y) ^ ((i : ℕ) + 1))⁻¹) :=
  rfl

lemma getD_nonneg_of_forall_mem {cfs : List ℚ} (h : ∀ x ∈ cfs, 0 ≤ x) (i : ℕ) :
    0 ≤ cfs.getD i 0 := by
  rw [List.getD_eq_getElem?_getD]
  rcases lt_or_ge i cfs.length with hi | hi
  · rw [List.getElem?_eq_getElem hi]
    exact h _ (List.getElem_mem hi)
  · rw [List.getElem?_eq_none hi]
    simp

lemma getD_replicate_zero (p i : ℕ) :
    (List.replicate p (0 : ℚ)).getD i 0 = 0 := by
  rw [List.getD_eq_getElem?_getD, List.getElem?_replicate]
  split <;> rfl

lemma getD_replicate_append (k : ℕ) (F : ℚ) (i : ℕ) :
    ((List.replicate k (0 : ℚ)) ++ [F]).getD i 0 = if i = k then F else 0 := by
  rw [List.getD_eq_getElem?_getD, List.getElem?_append]
  rcases lt_trichotomy i k with h | h | h
  · simp [h, List.getElem?_replicate, h.ne]
  · subst h
    simp
  · have h1 : ¬ i < k := by omega
    have h2 : ([F] : List ℚ)[i - k]? = none := by
      apply List.getElem?_eq_none
      simp only [List.length_singleton]
      omega
    simp [h1, h2, h.ne']

/-- The price of a schedule that is all zeros except for a final payment
`F` after `k + 1` periods. -/
lemma computeMetrics_price_single (k : ℕ) (F y : ℚ) (n : ℕ) (d : ℚ) :
    (computeMetrics (List.replicate k 0 ++ [F]) y n d).price
      = F * ((1 + y) ^ (k + 1))⁻¹ := by
  have hlen : (List.replicate k (0 : ℚ) ++ [F]).length = k + 1 := by simp
  rw [computeMetrics_price, hlen]
  rw [Finset.sum_congr rfl (fun i _ => by rw [getD_replicate_append, ite_mul, zero_mul])]
  rw [Finset.sum_ite_eq' (Finset.range (k + 1)) k
    (fun i => F * ((1 + y) ^ (i + 1))⁻¹)]
  simp

/-- The price of an all-zero schedule is zero. -/
lemma computeMetrics_price_zero (p : ℕ) (y : ℚ) (n : ℕ) (d : ℚ) :
    (computeMetrics (List.replicate p 0) y n d).price = 0 := by
  rw [computeMetrics_price]
  exact Finset.sum_eq_zero fun i _ => by rw [getD_replicate_zero, zero_mul]

/-- The Macaulay duration computed by `computeMetrics` is nonnegative as
soon as the cash flows are nonnegative, the periodic yield keeps `1 + y`
positive, and the price is positive. -/
lemma computeMetrics_mac_nonneg (cfs : List ℚ) (y : ℚ) (n : ℕ) (d : ℚ)
    (hy : 0 < 1 + y) (hcf : ∀ x ∈ cfs, 0 ≤ x)
    (hp : 0 < (computeMetrics cfs y n d).price) :
    0 ≤ (computeMetrics cfs y n d).macDuration := by
  rw [computeMetrics_macDuration]
  apply div_nonneg _ hp.le
  apply Finset.sum_nonneg
  intro i _
  have h1 : (0 : ℚ) ≤ ((i : ℚ) + 1) / n := by positivity
  have h2 : (0 : ℚ) ≤ cfs.getD i 0 := getD_nonneg_of_forall_mem hcf i
  have h3 : (0 : ℚ) ≤ ((1 + y) ^ (i + 1))⁻¹ := by positivity
  exact mul_nonneg h1 (mul_nonneg h2 h3)

lemma buildCashFlows_bondVanilla2y :
    buildCashFlows 2026 bondVanilla2y = .ok [5, 105] := by
  with_unfolding_all decide

lemma calculate_bond_metrics_bondVanilla2y :
    calculate_bond_metrics 2026 bondVanilla2y = .ok vanillaMetrics2y := by
  unfold calculate_bond_metrics
  rw [buildCashFlows_bondVanilla2y]
  rfl

/-- A successful `calculate_bond_metrics` call is `computeMetrics` applied
to the schedule produced by `buildCashFlows`. -/
lemma calculate_bond_metrics_ok {ty : ℤ} {a : BondArgs} {m : BondMetrics}
    (hm : calculate_bond_metrics ty a = .ok m) :
    ∃ cfs, buildCashFlows ty a = .ok cfs ∧
      m = computeMetrics cfs (periodicYtm a) a.coupon_freq.n (a.ytm / 100) := by
  unfold calculate_bond_metrics at hm
  cases hb : buildCashFlows ty a with
  | error e =>
      rw [hb] at hm
      exact absurd hm (by simp [Except.map])
  | ok cfs =>
      rw [hb] at hm
      simp only [Except.map, Except.ok.injEq] at hm
      exact ⟨cfs, rfl, hm.symm⟩

/-- C1: for every input on which `calculate_bond_metrics` succeeds with a
schedule of `periods ≥ 1` cash flows, and whose periodic yield `y`
satisfies `1 + y > 0`, the returned price is
`Σ_{i=1..periods} cashflow_i * (1+y)^(-i)`: the discount factor paired
with the i-th cash flow (1-indexed) is exactly `(1+y)^(-i)`. -/
theorem price_eq_discounted_cash_flow_sum
    (ty : ℤ) (a : BondArgs) (m : BondMetrics)
    (hm : calculate_bond_metrics ty a = .ok m)
    (_hlen : 1 ≤ m.cashFlows.length)
    (_hy : 0 < 1 + periodicYtm a) :
    m.price = ∑ i in Finset.range m.cashFlows.length,
        m.cashFlows.getD i 0 * (1 + periodicYtm a) ^ (-((i : ℤ) + 1)) ∧
    ∀ i < m.discountFactors.length,
        m.discountFactors.getD i 0 = (1 + periodicYtm a) ^ (-((i : ℤ) + 1)) := by
  obtain ⟨cfs, hb, rfl⟩ := calculate_bond_metrics_ok hm
  constructor
  · rw [computeMetrics_price, computeMetrics_cashFlows]
    refine Finset.sum_congr rfl fun i _ => ?_
    rw [show (-((i : ℤ) + 1)) = -((i + 1 : ℕ) : ℤ) by push_cast; ring,
      zpow_neg, zpow_natCast]
  · intro i hi
    rw [computeMetrics_discountFactors] at hi ⊢
    rw [List.length_ofFn] at hi
    rw [List.getD_eq_getElem?_getD, List.getElem?_eq_getElem (by simpa using hi),
      List.getElem_ofFn]
    simp only [Option.getD_some]
    rw [show (-((i : ℤ) + 1)) = -((i + 1 : ℕ) : ℤ) by push_cast; ring,
      zpow_neg, zpow_natCast]

set_option maxRecDepth 100000 in
theorem price_eq_discounted_cash_flow_sum_witness :
    vanillaMetrics2y.price = ∑ i in Finset.range vanillaMetrics2y.cashFlows.length,
        vanillaMetrics2y.cashFlows.getD i 0 * (1 + periodicYtm bondVanilla2y) ^ (-((i : ℤ) + 1)) ∧
    ∀ i < vanillaMetrics2y.discountFactors.length,
        vanillaMetrics2y.discountFactors.getD i 0
          = (1 + periodicYtm bondVanilla2y) ^ (-((i : ℤ) + 1)) :=
  price_eq_discounted_cash_flow_sum 2026 bondVanilla2y vanillaMetrics2y
    calculate_bond_metrics_bondVanilla2y (by with_unfolding_all decide)
    (by with_unfolding_all decide)

/-- C3: every successful `calculate_bond_metrics` result with positive
price has `modified duration = Macaulay duration / (1 + periodic yield)`,
and whenever the periodic yield is positive and all cash flows are
nonnegative, `modified duration ≤ Macaulay duration`. -/
theorem modified_duration_eq_mac_div_one_add_yield
    (ty : ℤ) (a : BondArgs) (m : BondMetrics)
    (hm : calculate_bond_metrics ty a = .ok m)
    (hp : 0 < m.price) :
    m.modDuration = m.macDuration / (1 + periodicYtm a) ∧
    (0 < periodicYtm a → (∀ x ∈ m.cashFlows, 0 ≤ x) →
      m.modDuration ≤ m.macDuration) := by
  obtain ⟨cfs, hb, rfl⟩ := calculate_bond_metrics_ok hm
  refine ⟨computeMetrics_modDuration _ _ _ _, fun hy hcf => ?_⟩
  rw [computeMetrics_modDuration]
  have h1 : (0 : ℚ) < 1 + periodicYtm a := by linarith
  have hmac : 0 ≤ (computeMetrics cfs (periodicYtm a) a.coupon_freq.n (a.ytm / 100)).macDuration :=
    computeMetrics_mac_nonneg cfs _ _ _ h1
      (by rwa [computeMetrics_cashFlows] at hcf) hp
  exact div_le_self hmac (by linarith)

set_option maxRecDepth 100000 in
theorem modified_duration_eq_mac_div_one_add_yield_witness :
    vanillaMetrics2y.modDuration = vanillaMetrics2y.macDuration / (1 + periodicYtm bondVanilla2y) ∧
    (0 < periodicYtm bondVanilla2y → (∀ x ∈ vanillaMetrics2y.cashFlows, 0 ≤ x) →
      vanillaMetrics2y.modDuration ≤ vanillaMetrics2y.macDuration) :=
  modified_duration_eq_mac_div_one_add_yield 2026 bondVanilla2y vanillaMetrics2y
    calculate_bond_metrics_bondVanilla2y (by with_unfolding_all decide)

/-- C7: the parametric VaR equals
`z(c) * (P*D*σ/10000) * sqrt(horizon)` with the `z` table of the source,
and the reference scenario (dollar duration 700, σ = 5 bps/day, horizon
10 days, confidence 99%) gives `price_volatility = 0.35` and
`VaR ≈ 2.326*0.35*sqrt(10) ≈ 2.57`. -/
theorem var_formula_and_reference_scenario :
    (∀ (c : Confidence) (h : ℕ) (vol P D : ℚ),
        valueAtRisk c h vol (dollarDuration P D)
          = (zScore c : ℝ) * ((P : ℝ) * (D : ℝ) * (vol : ℝ) / 10000) * Real.sqrt h) ∧
    zScore .c90 = 1.282 ∧ zScore .c95 = 1.645 ∧ zScore .c99 = 2.326 ∧
    zScore .c995 = 2.576 ∧ zScore .c999 = 3.090 ∧
    priceVolatility 700 5 = 0.35 ∧
    |valueAtRisk .c99 10 5 700 - 2.57| < 0.01 := by
  refine ⟨?_, rfl, rfl, rfl, rfl, rfl, by norm_num [priceVolatility], ?_⟩
  · intro c h vol P D
    simp only [valueAtRisk, priceVolatility, dollarDuration]
    push_cast
    ring
  · have h1 : Real.sqrt 10 < 3.163 :=
      (Real.sqrt_lt' (by norm_num)).mpr (by norm_num)
    have h2 : (3.162 : ℝ) < Real.sqrt 10 :=
      (Real.lt_sqrt (by norm_num)).mpr (by norm_num)
    simp only [valueAtRisk, priceVolatility, zScore]
    rw [abs_lt]
    push_cast
    constructor <;> nlinarith [h1, h2]

/-- C8: the slope metric is computed as `(y10 - y2)*100` on decimal
yields, so the number reported as "bps" is the yield difference in
percentage points, a hundredth of the basis-point slope the label and
the spec describe; consequently a curve rising from 2% at 2y to 3% at
10y (slope 100 bps) is reported as `1.00 bps` and classified FLAT, where
the claim requires NORMAL.  The flat-curve-at-3% scenario (slope 0,
classified flat) does hold. -/
theorem curve_slope_reported_in_percent_not_bps :
    curveSlope [2, 10] [2/100, 3/100] = 1 ∧
    classifyCurve (curveSlope [2, 10] [2/100, 3/100]) = .flat ∧
    (npInterp 10 [2, 10] [2/100, 3/100] - npInterp 2 [2, 10] [2/100, 3/100]) * 10000 = 100 ∧
    curveSlope [2, 10] [2/100, 3/100]
      ≠ (npInterp 10 [2, 10] [2/100, 3/100] - npInterp 2 [2, 10] [2/100, 3/100]) * 10000 ∧
    curveSlope [1, 2, 5, 10, 30] [3/100, 3/100, 3/100, 3/100, 3/100] = 0 ∧
    classifyCurve (curveSlope [1, 2, 5, 10, 30] [3/100, 3/100, 3/100, 3/100, 3/100]) = .flat := by
  with_unfolding_all decide

/-- C9 counterexample: on a bond whose maturity date equals the current
date, the `try` block of `calculate_basic_metrics` raises
(`ZeroDivisionError`), and the function silently returns
`ytm = 0, duration = 0` instead of any typed failure. -/
theorem basic_metrics_zero_maturity_counterexample :
    basicMetricsTry basicBondZeroYears = none ∧
    calculate_basic_metrics basicBondZeroYears = (0, 0) := by
  with_unfolding_all decide

/-- C9 amended: whenever the `try` block of `calculate_basic_metrics`
fails, the bond silently receives the default values `ytm = 0` and
`duration = 0`; no typed failure is reported. -/
theorem basic_metrics_silent_default_on_failure
    (b : BasicBond) (h : basicMetricsTry b = none) :
    calculate_basic_metrics b = (0, 0) := by
  rw [calculate_basic_metrics, h]
  rfl

theorem basic_metrics_silent_default_on_failure_witness :
    calculate_basic_metrics basicBondZeroYears = (0, 0) :=
  basic_metrics_silent_default_on_failure basicBondZeroYears (by with_unfolding_all decide)

/-- Cash flows of a successfully built vanilla fixed-rate schedule. -/
lemma buildCashFlows_vanilla {ty : ℤ} {a : BondArgs} {cfs : List ℚ}
    (hbt : a.bond_type = .vanillaFixedRate)
    (hb : buildCashFlows ty a = .ok cfs) :
    ∃ p : ℕ, 1 ≤ p ∧
      cfs = List.replicate (p - 1) (couponAmt a) ++ [a.face_value + couponAmt a] := by
  simp only [buildCashFlows, hbt] at hb
  split at hb
  · exact absurd hb (by simp)
  · simp only [vanillaFlows] at hb
    split at hb
    · exact absurd hb (by simp)
    · exact ⟨_, by omega, (Except.ok.inj hb).symm⟩

/-- Cash flows of a successfully built zero-coupon schedule. -/
lemma buildCashFlows_zeroCoupon {ty : ℤ} {a : BondArgs} {cfs : List ℚ}
    (hbt : a.bond_type = .zeroCoupon)
    (hb : buildCashFlows ty a = .ok cfs) :
    1 ≤ (ratTrunc (a.years_to_maturity * a.coupon_freq.n)).toNat ∧
      cfs = List.replicate ((ratTrunc (a.years_to_maturity * a.coupon_freq.n)).toNat - 1) 0
        ++ [a.face_value] := by
  simp only [buildCashFlows, hbt] at hb
  split at hb
  · exact absurd hb (by simp)
  · split at hb
    · exact absurd hb (by simp)
    · next h2 => exact ⟨by omega, (Except.ok.inj hb).symm⟩

lemma buildCashFlows_bondZcSemi :
    buildCashFlows 2026 bondZcSemi = .ok [0, 100] := by
  with_unfolding_all decide

lemma buildCashFlows_bondZcAnnual3y :
    buildCashFlows 2026 bondZcAnnual3y = .ok [0, 0, 100] := by
  with_unfolding_all decide

lemma calculate_bond_metrics_bondZcAnnual3y :
    calculate_bond_metrics 2026 bondZcAnnual3y = .ok zcMetrics3y := by
  unfold calculate_bond_metrics
  rw [buildCashFlows_bondZcAnnual3y]
  rfl

/-- C2 counterexample: the zero-coupon bond `bondZcSemi` (face 100,
annual ytm 10%, one year to maturity, semi-annual frequency) is priced by
the code at `100/(1.05)^2 = 40000/441 ≈ 90.703`, not at
`face/(1+ytm)^T = 100/1.1 = 1000/11 ≈ 90.909` as the claim requires for
every frequency. -/
theorem zero_coupon_semiannual_price_counterexample :
    (calculate_bond_metrics 2026 bondZcSemi).map BondMetrics.price = .ok (40000 / 441) ∧
    (40000 / 441 : ℚ)
      ≠ bondZcSemi.face_value / (1 + bondZcSemi.ytm / 100) ^ (1 : ℕ) := by
  constructor
  · unfold calculate_bond_metrics
    rw [buildCashFlows_bondZcSemi]
    simp only [Except.map, Except.ok.injEq]
    rw [computeMetrics_price]
    simp only [List.length_cons, List.length_nil, Finset.sum_range_succ,
      Finset.sum_range_zero, List.getD_cons_zero, List.getD_cons_succ]
    norm_num [periodicYtm, bondZcSemi, Freq.n]
  · with_unfolding_all decide

/-- C2 amended: a zero-coupon bond with `periods = int(T*n) ≥ 1` is priced
at `face/(1+ytm/n)^periods` (the yield divided by the frequency and
compounded `T*n` times); only in the annual case `n = 1` does this equal
`face/(1+ytm)^int(T)` as the spec's formula states. -/
theorem zero_coupon_price_formula
    (ty : ℤ) (a : BondArgs) (m : BondMetrics)
    (hbt : a.bond_type = .zeroCoupon)
    (hm : calculate_bond_metrics ty a = .ok m) :
    m.price = a.face_value
      * ((1 + periodicYtm a)
          ^ (ratTrunc (a.years_to_maturity * a.coupon_freq.n)).toNat)⁻¹ ∧
    (a.coupon_freq = .annual →
      m.price = a.face_value / (1 + a.ytm / 100) ^ (ratTrunc a.years_to_maturity).toNat) := by
  obtain ⟨cfs, hb, rfl⟩ := calculate_bond_metrics_ok hm
  obtain ⟨hp, rfl⟩ := buildCashFlows_zeroCoupon hbt hb
  have hmain : (computeMetrics
      (List.replicate ((ratTrunc (a.years_to_maturity * a.coupon_freq.n)).toNat - 1) 0
        ++ [a.face_value]) (periodicYtm a) a.coupon_freq.n (a.ytm / 100)).price
      = a.face_value * ((1 + periodicYtm a)
          ^ (ratTrunc (a.years_to_maturity * a.coupon_freq.n)).toNat)⁻¹ := by
    rw [computeMetrics_price_single,
      show (ratTrunc (a.years_to_maturity * (a.coupon_freq.n : ℚ))).toNat - 1 + 1
        = (ratTrunc (a.years_to_maturity * (a.coupon_freq.n : ℚ))).toNat from by omega]
  refine ⟨hmain, fun hf => ?_⟩
  have hfn : ((a.coupon_freq.n : ℚ)) = 1 := by
    rw [hf]
    norm_num [Freq.n]
  rw [hmain, div_eq_mul_inv, periodicYtm, hfn, div_one, mul_one]

theorem zero_coupon_price_formula_witness :
    zcMetrics3y.price = bondZcAnnual3y.face_value
      * ((1 + periodicYtm bondZcAnnual3y)
          ^ (ratTrunc (bondZcAnnual3y.years_to_maturity * bondZcAnnual3y.coupon_freq.n)).toNat)⁻¹ ∧
    (bondZcAnnual3y.coupon_freq = .annual →
      zcMetrics3y.price = bondZcAnnual3y.face_value
        / (1 + bondZcAnnual3y.ytm / 100) ^ (ratTrunc bondZcAnnual3y.years_to_maturity).toNat) :=
  zero_coupon_price_formula 2026 bondZcAnnual3y zcMetrics3y rfl
    calculate_bond_metrics_bondZcAnnual3y

set_option maxRecDepth 8000 in
/-- C4 counterexample: a Putable Bond with the same terms as a vanilla
bond (face 1000, coupon 5%, ytm 6%, 2 years, annual) keeps the all-zero
`np.zeros(periods)` schedule — price 0 — while the vanilla schedule is
`[50, 1050]` with positive price; unimplemented variants do not fall
back to vanilla cash flows. -/
theorem unimplemented_type_schedule_counterexample :
    buildCashFlows 2026 bondPut2y = .ok [0, 0] ∧
    buildCashFlows 2026 bondVan1000 = .ok [50, 1050] ∧
    ([0, 0] : List ℚ) ≠ [50, 1050] ∧
    (calculate_bond_metrics 2026 bondPut2y).map BondMetrics.price = .ok 0 ∧
    (calculate_bond_metrics 2026 bondVan1000).map BondMetrics.price ≠ .ok 0 := by
  have h1 : buildCashFlows 2026 bondPut2y = .ok [0, 0] := by
    with_unfolding_all decide
  have h2 : buildCashFlows 2026 bondVan1000 = .ok [50, 1050] := by
    with_unfolding_all decide
  refine ⟨h1, h2, by with_unfolding_all decide, ?_, ?_⟩
  · unfold calculate_bond_metrics
    rw [h1]
    simp only [Except.map, Except.ok.injEq]
    rw [computeMetrics_price]
    simp [List.getD_cons_zero, List.getD_cons_succ, Finset.sum_range_succ]
  · unfold calculate_bond_metrics
    rw [h2]
    simp only [Except.map, ne_eq, Except.ok.injEq]
    rw [computeMetrics_price]
    simp only [List.length_cons, List.length_nil, Finset.sum_range_succ,
      Finset.sum_range_zero, List.getD_cons_zero, List.getD_cons_succ]
    norm_num [periodicYtm, bondVan1000, Freq.n]

/-- C4 amended: for every unimplemented structural variant (Putable,
Step-Up, Step-Down, Fixed-to-Floating, Inflation-Linked) the schedule is
the untouched all-zero array of length `periods`, so the price is 0 (and
duration/convexity are 0/0 divisions); the variant is not priced as
Vanilla Fixed Rate. -/
theorem unimplemented_types_produce_zero_schedule
    (ty : ℤ) (a : BondArgs)
    (hbt : a.bond_type = .putableBond ∨ a.bond_type = .stepUpCoupon ∨
      a.bond_type = .stepDownCoupon ∨ a.bond_type = .fixedToFloating ∨
      a.bond_type = .inflationLinked)
    (hp : 0 ≤ ratTrunc (a.years_to_maturity * a.coupon_freq.n)) :
    buildCashFlows ty a
      = .ok (List.replicate (ratTrunc (a.years_to_maturity * a.coupon_freq.n)).toNat 0) ∧
    (calculate_bond_metrics ty a).map BondMetrics.price = .ok 0 := by
  have hb : buildCashFlows ty a
      = .ok (List.replicate (ratTrunc (a.years_to_maturity * a.coupon_freq.n)).toNat 0) := by
    rcases hbt with h | h | h | h | h <;>
      · simp only [buildCashFlows, h]
        rw [if_neg (not_lt.mpr hp)]
  refine ⟨hb, ?_⟩
  unfold calculate_bond_metrics
  rw [hb]
  simp only [Except.map, Except.ok.injEq]
  exact computeMetrics_price_zero _ _ _ _

theorem unimplemented_types_produce_zero_schedule_witness :
    buildCashFlows 2026 bondPut2y
      = .ok (List.replicate
          (ratTrunc (bondPut2y.years_to_maturity * bondPut2y.coupon_freq.n)).toNat 0) ∧
    (calculate_bond_metrics 2026 bondPut2y).map BondMetrics.price = .ok 0 :=
  unimplemented_types_produce_zero_schedule 2026 bondPut2y (Or.inl rfl)
    (by with_unfolding_all decide)

/-- `callableFlows` with a call period `0 ≤ k < p` is the truncated
schedule: coupons strictly before `k`, call amount at `k`, zero after. -/
lemma callableFlows_eq_of_nonneg (p : ℕ) (k : ℤ) (c call : ℚ)
    (h0 : 0 ≤ k) (hk : k < (p : ℤ)) :
    callableFlows p k c call = List.ofFn (fun i : Fin p =>
      if ((i : ℕ) : ℤ) < k then c
      else if ((i : ℕ) : ℤ) = k then call
      else 0) := by
  unfold callableFlows
  congr 1
  funext i
  have e1 : ((pyBound (k + 1) p : ℕ) : ℤ) = k + 1 := by
    unfold pyBound
    rw [if_pos (by omega : (0 : ℤ) ≤ k + 1)]
    omega
  have e2 : ((pyBound k p : ℕ) : ℤ) = k := by
    unfold pyBound
    rw [if_pos h0]
    omega
  rw [if_pos h0, e1, e2]
  have hip : ((i : ℕ) : ℤ) < p := by exact_mod_cast i.2
  split_ifs <;> first | rfl | omega

/-- C5 counterexample: `bondCallPast` has call year 2025 seen from 2026
(call period index `k = -1 < periods = 2`), yet its schedule is `[0, 0]`:
the call amount `102/100*1000 = 1020` is paid in no period at all (Python
negative indexing writes it at the end, and `cash_flows[k+1:] = 0` then
zeroes the whole array), contradicting "pays call_price/100*face at
period k". -/
theorem callable_past_call_date_counterexample :
    ((2025 - 2026) * ((Freq.annual.n : ℕ) : ℤ)
        < ratTrunc (bondCallPast.years_to_maturity * bondCallPast.coupon_freq.n)) ∧
    buildCashFlows 2026 bondCallPast = .ok [0, 0] ∧
    (102 / 100 * (1000 : ℚ)) ∉ ([0, 0] : List ℚ) ∧
    (102 / 100 * (1000 : ℚ)) ≠ 0 := by
  refine ⟨by with_unfolding_all decide, by with_unfolding_all decide,
    by with_unfolding_all decide, by with_unfolding_all decide⟩

/-- C5 amended: for a Callable Bond with both call parameters present and
at least one period, a **nonnegative** call period index `k < periods`
yields the truncated schedule (coupon strictly before `k`, call price at
`k`, zero after), and `k ≥ periods` yields the vanilla schedule; a
negative `k` (call year before the current year) instead follows Python
negative-index semantics and is excluded here. -/
theorem callable_schedule_truncation
    (ty : ℤ) (a : BondArgs) (cy : ℤ) (cp : ℚ)
    (hbt : a.bond_type = .callableBond)
    (hcd : a.call_date_year = some cy)
    (hcp : a.call_price = some cp)
    (hper : 1 ≤ ratTrunc (a.years_to_maturity * a.coupon_freq.n)) :
    ((0 : ℤ) ≤ (cy - ty) * a.coupon_freq.n →
      (cy - ty) * a.coupon_freq.n < ratTrunc (a.years_to_maturity * a.coupon_freq.n) →
      buildCashFlows ty a = .ok (List.ofFn
        (fun i : Fin (ratTrunc (a.years_to_maturity * a.coupon_freq.n)).toNat =>
          if ((i : ℕ) : ℤ) < (cy - ty) * a.coupon_freq.n then couponAmt a
          else if ((i : ℕ) : ℤ) = (cy - ty) * a.coupon_freq.n then cp / 100 * a.face_value
          else 0))) ∧
    (ratTrunc (a.years_to_maturity * a.coupon_freq.n) ≤ (cy - ty) * a.coupon_freq.n →
      buildCashFlows ty a = .ok
        (List.replicate ((ratTrunc (a.years_to_maturity * a.coupon_freq.n)).toNat - 1)
          (couponAmt a) ++ [a.face_value + couponAmt a])) := by
  constructor
  · intro h0 hk
    simp only [buildCashFlows, hbt, hcd, hcp]
    rw [if_neg (by omega), if_pos hk, if_neg (by omega)]
    rw [callableFlows_eq_of_nonneg _ _ _ _ h0 (by omega)]
  · intro hk
    simp only [buildCashFlows, hbt, hcd, vanillaFlows]
    rw [if_neg (by omega), if_neg (not_lt.mpr hk), if_neg (by omega)]

theorem callable_schedule_truncation_witness :
    buildCashFlows 2026 bondCall10y = .ok (List.ofFn
      (fun i : Fin (ratTrunc (bondCall10y.years_to_maturity * bondCall10y.coupon_freq.n)).toNat =>
        if ((i : ℕ) : ℤ) < (2031 - 2026) * bondCall10y.coupon_freq.n then couponAmt bondCall10y
        else if ((i : ℕ) : ℤ) = (2031 - 2026) * bondCall10y.coupon_freq.n
          then 102 / 100 * bondCall10y.face_value
        else 0)) :=
  (callable_schedule_truncation 2026 bondCall10y 2031 102 rfl rfl rfl
    (by with_unfolding_all decide)).1 (by with_unfolding_all decide)
    (by with_unfolding_all decide)

/-- C6 counterexample: invalid terms do not raise a typed
`InvalidTermsError` — the source defines no error class at all.  A
schedule of zero periods fails with `IndexError` from
`cash_flows[-1] = ...`, a Callable Bond without `call_date` fails with
`KeyError` from `kwargs['call_date']`, and negative years fail with
`ValueError` from `np.zeros(periods)`. -/
theorem invalid_terms_untyped_errors_counterexample :
    buildCashFlows 2026 bondHalfYear = .error .indexError ∧
    buildCashFlows 2026 bondCallNoDate = .error .keyError ∧
    buildCashFlows 2026 bondNegYears = .error .valueError := by
  refine ⟨by with_unfolding_all decide, by with_unfolding_all decide,
    by with_unfolding_all decide⟩

/-- C6 amended: the cash-flow construction fails, but with Python's
builtin untyped exceptions rather than a typed `InvalidTermsError`:
`IndexError` when the truncated period count is 0 (vanilla or
zero-coupon), `KeyError` when a Callable Bond lacks its `call_date`,
and `ValueError` when the period count is negative.  (`frequency ≤ 0`
is unrepresentable: the frequency is mapped from a fixed enum of
positive values.) -/
theorem invalid_terms_untyped_errors :
    (∀ (ty : ℤ) (a : BondArgs),
        (a.bond_type = .vanillaFixedRate ∨ a.bond_type = .zeroCoupon) →
        ratTrunc (a.years_to_maturity * a.coupon_freq.n) = 0 →
        buildCashFlows ty a = .error .indexError) ∧
    (∀ (ty : ℤ) (a : BondArgs),
        a.bond_type = .callableBond → a.call_date_year = none →
        0 ≤ ratTrunc (a.years_to_maturity * a.coupon_freq.n) →
        buildCashFlows ty a = .error .keyError) ∧
    (∀ (ty : ℤ) (a : BondArgs),
        ratTrunc (a.years_to_maturity * a.coupon_freq.n) < 0 →
        buildCashFlows ty a = .error .valueError) := by
  refine ⟨?_, ?_, ?_⟩
  · intro ty a hbt hz
    rcases hbt with h | h
    · simp only [buildCashFlows, h, vanillaFlows]
      rw [if_neg (by omega), if_pos (by omega)]
    · simp only [buildCashFlows, h]
      rw [if_neg (by omega), if_pos (by omega)]
  · intro ty a hbt hcd hnn
    simp only [buildCashFlows, hbt, hcd]
    rw [if_neg (by omega)]
  · intro ty a hneg
    simp only [buildCashFlows]
    rw [if_pos hneg]

theorem invalid_terms_untyped_errors_witness :
    buildCashFlows 2026 bondHalfYear = .error .indexError ∧
    buildCashFlows 2026 bondCallNoDate = .error .keyError ∧
    buildCashFlows 2026 bondNegYears = .error .valueError :=
  ⟨invalid_terms_untyped_errors.1 2026 bondHalfYear (Or.inl rfl)
      (by with_unfolding_all decide),
    invalid_terms_untyped_errors.2.1 2026 bondCallNoDate rfl rfl
      (by with_unfolding_all decide),
    invalid_terms_untyped_errors.2.2 2026 bondNegYears
      (by with_unfolding_all decide)⟩

lemma getD_zero_replicate_append (k : ℕ) (c x : ℚ) (hk : 1 ≤ k) :
    (List.replicate k c ++ [x]).getD 0 0 = c := by
  rw [List.getD_eq_getElem?_getD, List.getElem?_append]
  have h0 : 0 < k := hk
  simp [List.getElem?_replicate, h0]

/-- C10: `calculate_bond_metrics` treats `coupon_rate` and `ytm` as
annual percentages: it discounts at the periodic yield
`ytm/(100*frequency)`, returns exactly `ytm/100` (the annual decimal
rate, never the periodic rate) under "Yield to Maturity", and pays the
periodic coupon `face * coupon_rate/(100*frequency)`. -/
theorem rates_divided_by_100
    (ty : ℤ) (a : BondArgs) (m : BondMetrics)
    (hm : calculate_bond_metrics ty a = .ok m) :
    m.ytm = a.ytm / 100 ∧
    periodicYtm a = a.ytm / (100 * a.coupon_freq.n) ∧
    (∀ i < m.discountFactors.length,
      m.discountFactors.getD i 0 = ((1 + a.ytm / (100 * a.coupon_freq.n)) ^ (i + 1))⁻¹) ∧
    (a.bond_type = .vanillaFixedRate → 2 ≤ m.cashFlows.length →
      m.cashFlows.getD 0 0 = a.face_value * (a.coupon_rate / (100 * a.coupon_freq.n))) := by
  obtain ⟨cfs, hb, rfl⟩ := calculate_bond_metrics_ok hm
  have hdiv : periodicYtm a = a.ytm / (100 * a.coupon_freq.n) := div_div _ _ _
  refine ⟨computeMetrics_ytm _ _ _ _, hdiv, ?_, ?_⟩
  · intro i hi
    rw [computeMetrics_discountFactors] at hi ⊢
    rw [List.length_ofFn] at hi
    rw [List.getD_eq_getElem?_getD, List.getElem?_eq_getElem (by simpa using hi),
      List.getElem_ofFn]
    simp only [Option.getD_some]
    rw [hdiv]
  · intro hbt hlen
    obtain ⟨p, hp1, hcfs⟩ := buildCashFlows_vanilla hbt hb
    rw [computeMetrics_cashFlows] at hlen ⊢
    subst hcfs
    have hlen' : 1 ≤ p - 1 := by
      rw [List.length_append, List.length_replicate] at hlen
      simp at hlen
      omega
    rw [getD_zero_replicate_append _ _ _ hlen', couponAmt, div_div]

theorem rates_divided_by_100_witness :
    vanillaMetrics2y.ytm = bondVanilla2y.ytm / 100 ∧
    periodicYtm bondVanilla2y = bondVanilla2y.ytm / (100 * bondVanilla2y.coupon_freq.n) ∧
    (∀ i < vanillaMetrics2y.discountFactors.length,
      vanillaMetrics2y.discountFactors.getD i 0
        = ((1 + bondVanilla2y.ytm / (100 * bondVanilla2y.coupon_freq.n)) ^ (i + 1))⁻¹) ∧
    (bondVanilla2y.bond_type = .vanillaFixedRate → 2 ≤ vanillaMetrics2y.cashFlows.length →
      vanillaMetrics2y.cashFlows.getD 0 0
        = bondVanilla2y.face_value
          * (bondVanilla2y.coupon_rate / (100 * bondVanilla2y.coupon_freq.n))) :=
  rates_divided_by_100 2026 bondVanilla2y vanillaMetrics2y
    calculate_bond_metrics_bondVanilla2y
